import Mathlib

/-!
Shallow embedding of the `prelude` TypeScript utility library
(src/option.ts, src/result.ts, src/error.ts, src/function.ts).

JavaScript runtime values are modelled by the inductive `JSValue`;
throwing is modelled by `Except`, with the thrown value a `JSValue`.
Numbers are modelled as integers (no claim involves floats or NaN).
-/

/-- A JavaScript runtime value, as far as the library inspects one:
`null`, `undefined`, booleans, numbers (modelled as integers), strings,
Error objects (carrying their message), and other objects (identified
by an id; always truthy). -/
inductive JSValue where
  | vNull
  | vUndefined
  | vBool (b : Bool)
  | vNum (n : Int)
  | vStr (s : String)
  | vError (message : String)
  | vObj (id : Nat)
  deriving DecidableEq, Repr

/-- JavaScript truthiness: `null`, `undefined`, `false`, `0` and the
empty string are falsy; every other modelled value is truthy. -/
def JSValue.truthy : JSValue → Bool
  | .vNull => false
  | .vUndefined => false
  | .vBool b => b
  | .vNum n => n != 0
  | .vStr s => s != ""
  | .vError _ => true
  | .vObj _ => true

/-- Whether a value is `null` or `undefined` (the strict nullish check,
as opposed to truthiness). -/
def JSValue.isNullish : JSValue → Bool
  | .vNull => true
  | .vUndefined => true
  | _ => false

/-- The message of an Error object, when the value is one. -/
def JSValue.errMessage : JSValue → Option String
  | .vError m => some m
  | _ => none

/-- String conversion as JavaScript template interpolation performs it. -/
def JSValue.toDisplay : JSValue → String
  | .vNull => "null"
  | .vUndefined => "undefined"
  | .vBool b => if b then "true" else "false"
  | .vNum n => toString n
  | .vStr s => s
  | .vError m => "Error: " ++ m
  | .vObj _ => "[object Object]"

instance : ToString JSValue := ⟨JSValue.toDisplay⟩

/-- An optional string argument: a JS optional parameter is `undefined`
when absent, which `??` then replaces by the default. -/
abbrev OptString := Option String

/-- Embeds `UnwrapError` (result.ts line 82): a `TaggedError` with
`_tag = "UnwrapError"`, carrying its message. -/
structure UnwrapError where
  message : String
  deriving DecidableEq, Repr

/-- The constant `_tag` of `UnwrapError`. -/
def UnwrapError.tag : UnwrapError → String := fun _ => "UnwrapError"

/-- Embeds `TryCatchError` (result.ts line 86): a `TaggedError` with
`_tag = "TryCatchError"`, constructed from the caught value as `cause`
and the fixed message "TryCatchError". -/
structure TryCatchError where
  cause : JSValue
  deriving DecidableEq, Repr

/-- The constant `_tag` of `TryCatchError`. -/
def TryCatchError.tag : TryCatchError → String := fun _ => "TryCatchError"

/-- The message `TryCatchError` passes to `super`. -/
def TryCatchError.message : TryCatchError → String := fun _ => "TryCatchError"

namespace TS

/-- Embeds `Option<A>` (option.ts): `Some(value)` or `None`. At runtime
the contained value is an arbitrary `JSValue`; the non-null restriction
on `Some` is a type-level contract only (`new Some(value)` performs no
check). -/
inductive Option where
  | some (value : JSValue)
  | none
  deriving DecidableEq, Repr

namespace Option

/-- Embeds `Option.fromNullable` (option.ts lines 44-50): the source
tests `if (value)` — truthiness, not a nullish check. -/
def fromNullable (value : JSValue) : Option :=
  if value.truthy then .some value else .none

/-- Embeds `Some.isSome` / `None.isSome`. -/
def isSome : Option → Bool
  | .some _ => true
  | .none => false

/-- Embeds `Some.isNone` / `None.isNone`. -/
def isNone : Option → Bool
  | .some _ => false
  | .none => true

/-- Embeds `Some.map` (wraps `fn(this.value)` in a fresh `Some`) and
`None.map` (returns `this`). -/
def map (o : Option) (fn : JSValue → JSValue) : Option :=
  match o with
  | .some v => .some (fn v)
  | .none => .none

/-- Embeds `Some.andThen` (returns `fn(this.value)`) and `None.andThen`
(returns `this`). -/
def andThen (o : Option) (fn : JSValue → Option) : Option :=
  match o with
  | .some v => fn v
  | .none => .none

/-- Embeds `Some.unwrap` (returns the value, ignoring the message) and
`None.unwrap` (throws `new UnwrapError(message ?? "Option is none")`).
Throwing is modelled by `Except.error`. -/
def unwrap (o : Option) (message : OptString) : Except UnwrapError JSValue :=
  match o with
  | .some v => .ok v
  | .none => .error ⟨message.getD "Option is none"⟩

/-- Embeds `Some.unwrapOr` (returns the value) and `None.unwrapOr`
(returns the default). -/
def unwrapOr (o : Option) (or : JSValue) : JSValue :=
  match o with
  | .some v => v
  | .none => or

end Option

/-- Embeds `Result<A,E>` (result.ts): `Ok(value)` or `Err(value)`.
`Result.ok` places no restriction on its argument (`ok<A>(value: A)`,
unlike `Option.some`, which requires `NonNullable<A>`). -/
inductive Result (A E : Type) where
  | ok (value : A)
  | err (value : E)
  deriving DecidableEq, Repr

namespace Result

variable {A B E F : Type}

/-- Embeds `Ok.isOk` / `Err.isOk`. -/
def isOk : Result A E → Bool
  | .ok _ => true
  | .err _ => false

/-- Embeds `Ok.isErr` / `Err.isErr`. -/
def isErr : Result A E → Bool
  | .ok _ => false
  | .err _ => true

/-- Embeds `Ok.map` (wraps `fn(this.value)` in a fresh `Ok`) and
`Err.map` (returns `this`). -/
def map (r : Result A E) (fn : A → B) : Result B E :=
  match r with
  | .ok v => .ok (fn v)
  | .err e => .err e

/-- Embeds `Ok.mapError` (returns `this`) and `Err.mapError` (wraps
`fn(this.value)` in a fresh `Err`). -/
def mapError (r : Result A E) (fn : E → F) : Result A F :=
  match r with
  | .ok v => .ok v
  | .err e => .err (fn e)

/-- Embeds `Ok.andThen` (returns `fn(this.value)`) and `Err.andThen`
(returns `this`, untouched — `fn` is never applied). -/
def andThen (r : Result A E) (fn : A → Result B E) : Result B E :=
  match r with
  | .ok v => fn v
  | .err e => .err e

/-- Embeds `Ok.unwrap` (returns the value, ignoring the message) and
`Err.unwrap` (throws `new UnwrapError(message ?? template)`). -/
def unwrap [ToString E] (r : Result A E) (message : OptString) :
    Except UnwrapError A :=
  match r with
  | .ok v => .ok v
  | .err e => .error ⟨message.getD ("Result is error: " ++ toString e)⟩

/-- Embeds `Ok.unwrapOr` / `Err.unwrapOr`. -/
def unwrapOr (r : Result A E) (or : A) : A :=
  match r with
  | .ok v => v
  | .err _ => or

/-- Embeds `Ok.unwrapError` (throws) and `Err.unwrapError` (returns
the error value). -/
def unwrapError [ToString A] (r : Result A E) : Except UnwrapError E :=
  match r with
  | .ok v => .error ⟨"Result is ok: " ++ toString v⟩
  | .err e => .ok e

/-- Embeds `Result.try` (result.ts lines 50-58); `try` is a Lean
keyword, hence the guillemets. The caller-supplied `fn` is modelled by
its outcome: `Except.ok v` when `fn()` returns `v` normally,
`Except.error t` when `fn()` throws the value `t`. The body wraps a
normal return in `Ok` and a caught throw in
`Err(new TryCatchError(cause))`; the function itself is total — it
never throws. -/
def «try» (fn : Except JSValue A) : Result A TryCatchError :=
  match fn with
  | .ok result => Result.ok result
  | .error error => Result.err ⟨error⟩

/-- Embeds `Result.asyncTry` (result.ts lines 71-79). The awaited
promise of `fn` is modelled by its settled outcome: `Except.ok v` when
it fulfills with `v`, `Except.error t` when `fn` throws synchronously
or its promise rejects with `t`. The returned promise always resolves
(never rejects), so the model returns a plain `Result`. -/
def asyncTry (fn : Except JSValue A) : Result A TryCatchError :=
  match fn with
  | .ok result => Result.ok result
  | .error error => Result.err ⟨error⟩

end Result

end TS

/-- An error value as `isTaggedError` (error.ts lines 5-11) can
receive one: a plain `Error`; an `UnwrapError` or `TryCatchError`
(the two classes of this library extending `TaggedError`); or a forged
plain object carrying a `_tag` field and a message without inheriting
from `TaggedError`. -/
inductive ErrorLike where
  | plainError (message : String)
  | unwrapErr (e : UnwrapError)
  | tryCatchErr (e : TryCatchError)
  | forged (tag : String) (message : String)
  deriving DecidableEq, Repr

/-- Whether the value's prototype chain contains `TaggedError`, i.e.
what `error instanceof TaggedError` evaluates to: true exactly for the
two subclasses declared in the library. -/
def ErrorLike.instanceOfTaggedError : ErrorLike → Bool
  | .unwrapErr _ => true
  | .tryCatchErr _ => true
  | .plainError _ => false
  | .forged _ _ => false

/-- Whether the value carries a `_tag` field (the looser, duck-typed
check mentioned in the spec — not what the source implements). -/
def ErrorLike.hasTagField : ErrorLike → Bool
  | .plainError _ => false
  | .unwrapErr _ => true
  | .tryCatchErr _ => true
  | .forged _ _ => true

/-- Embeds `isTaggedError` (error.ts lines 5-11): returns true if
`error instanceof TaggedError`, otherwise false. -/
def isTaggedError (error : ErrorLike) : Bool :=
  if error.instanceOfTaggedError then true else false

/-- What `Fn.tap`'s side-effecting function hands back when it does
not throw: either a non-promise (`void`) result or a promise, carried
with its eventual settlement so the model can state that the
settlement is discarded. -/
inductive TapReturn where
  | retVoid
  | retPromise (settles : Except JSValue Unit)
  deriving Repr

namespace Fn

/-- Embeds `Fn.tap` (function.ts lines 105-115). The side-effecting
`fn` is modelled by its outcome at the given value: `Except.error t`
when it throws `t` synchronously, otherwise `Except.ok` of what it
returned. The source attaches `.catch(() => \x7b\x7d)` to a returned
promise and returns `value`; on a synchronous throw the catch branch
returns `value`; so every branch returns `value`. -/
def tap {A : Type} (fn : A → Except JSValue TapReturn) (value : A) : A :=
  match fn value with
  | .ok r =>
    match r with
    | .retVoid => value
    | .retPromise _ => value
  | .error _ => value

end Fn

/-- A total function on `JSValue` used as a concrete map argument:
successor on numbers, a fixed non-null number elsewhere. -/
def numSucc : JSValue → JSValue
  | .vNum n => .vNum (n + 1)
  | _ => .vNum 0

/-- A total function on `JSValue` used as a concrete map argument:
doubling on numbers, a fixed non-null number elsewhere. -/
def numDouble : JSValue → JSValue
  | .vNum n => .vNum (2 * n)
  | _ => .vNum 0

/-- Claim C1: for every non-null value v and optional message m,
`Option.some(v).unwrap(m)` returns v; `Option.none().unwrap(m)` never
returns and throws an `UnwrapError` whose message is m when m is
provided and the default "Option is none" otherwise. -/
theorem c1_option_unwrap (v : JSValue) (m : OptString) (s : String)
    (_hv : v.isNullish = false) :
    (TS.Option.some v).unwrap m = Except.ok v
    ∧ TS.Option.none.unwrap (some s) = Except.error ⟨s⟩
    ∧ TS.Option.none.unwrap none = Except.error ⟨"Option is none"⟩ :=
  ⟨rfl, rfl, rfl⟩

/-- Witness for C1 at v = 7, m = "msg", s = "boomed". -/
theorem c1_option_unwrap_witness :
    (TS.Option.some (JSValue.vNum 7)).unwrap (some "msg")
        = Except.ok (JSValue.vNum 7)
    ∧ TS.Option.none.unwrap (some "boomed") = Except.error ⟨"boomed"⟩
    ∧ TS.Option.none.unwrap none = Except.error ⟨"Option is none"⟩ :=
  c1_option_unwrap (JSValue.vNum 7) (some "msg") "boomed" rfl

/-- Claim C2: `Option.fromNullable` uses a truthiness-based absence
check — every falsy input (null, undefined, 0, "", false) yields None
and every truthy input v yields Some holding v. -/
theorem c2_fromNullable_truthiness :
    (∀ v : JSValue, TS.Option.fromNullable v =
        if v.truthy then TS.Option.some v else TS.Option.none)
    ∧ TS.Option.fromNullable JSValue.vNull = TS.Option.none
    ∧ TS.Option.fromNullable JSValue.vUndefined = TS.Option.none
    ∧ TS.Option.fromNullable (JSValue.vNum 0) = TS.Option.none
    ∧ TS.Option.fromNullable (JSValue.vStr "") = TS.Option.none
    ∧ TS.Option.fromNullable (JSValue.vBool false) = TS.Option.none :=
  ⟨fun _ => rfl, by decide, by decide, by decide, by decide, by decide⟩

/-- Counterexample to claim C3: the input 0 is neither null nor
undefined, yet `Option.fromNullable(0)` is None, not Some(0) — the
source tests truthiness, not nullishness. -/
theorem c3_fromNullable_counterexample :
    (JSValue.vNum 0).isNullish = false
    ∧ TS.Option.fromNullable (JSValue.vNum 0) = TS.Option.none
    ∧ TS.Option.fromNullable (JSValue.vNum 0)
        ≠ TS.Option.some (JSValue.vNum 0) := by
  refine ⟨rfl, by decide, by decide⟩

/-- Claim C3 as amended: `Option.fromNullable(v)` yields Some holding v
exactly when v is truthy and None exactly when v is falsy; null and
undefined are falsy (and so yield None), but so are 0, "" and false. -/
theorem c3_fromNullable_amended (v : JSValue) :
    (TS.Option.fromNullable v).isSome = v.truthy
    ∧ (TS.Option.fromNullable v).isNone = !v.truthy
    ∧ TS.Option.fromNullable v =
        (if v.truthy then TS.Option.some v else TS.Option.none)
    ∧ TS.Option.fromNullable JSValue.vNull = TS.Option.none
    ∧ TS.Option.fromNullable JSValue.vUndefined = TS.Option.none := by
  refine ⟨?_, ?_, rfl, by decide, by decide⟩
  · by_cases h : v.truthy <;>
      simp [TS.Option.fromNullable, h, TS.Option.isSome]
  · by_cases h : v.truthy <;>
      simp [TS.Option.fromNullable, h, TS.Option.isNone]

/-- Claim C4: `Result.ok(v).andThen(f)` equals `f(v)`;
`Result.err(e).andThen(f)` equals `Result.err(e)` unchanged, and the
outcome does not depend on f at all (f is never invoked). -/
theorem c4_result_andThen (A B E : Type) (v : A) (e : E)
    (f g : A → TS.Result B E) :
    (TS.Result.ok v : TS.Result A E).andThen f = f v
    ∧ (TS.Result.err e : TS.Result A E).andThen f = TS.Result.err e
    ∧ (TS.Result.err e : TS.Result A E).andThen f
        = (TS.Result.err e : TS.Result A E).andThen g :=
  ⟨rfl, rfl, rfl⟩

/-- Claim C5: `Result.try(fn)` returns Ok of fn's value on normal
return and, on any thrown value t, Err of a `TryCatchError` whose
cause is t; for fn throwing `new Error("x")` the unwrapped error's
cause has message "x". `Result.try` itself never throws: the model is
a total function into `Result`, with no thrown-value channel. -/
theorem c5_result_try (A : Type) (v : A) (t : JSValue) :
    TS.Result.«try» (Except.ok v) = TS.Result.ok v
    ∧ (TS.Result.«try» (Except.error t) : TS.Result A TryCatchError)
        = TS.Result.err ⟨t⟩
    ∧ (TS.Result.«try» (Except.error (JSValue.vError "x"))
        : TS.Result JSValue TryCatchError).unwrapError
        = Except.ok ⟨JSValue.vError "x"⟩
    ∧ (TryCatchError.mk (JSValue.vError "x")).cause.errMessage = some "x" :=
  ⟨rfl, rfl, rfl, rfl⟩

/-- Claim C6: `Result.asyncTry(fn)`'s returned promise never rejects —
the model is a total function into `Result`, with no rejection
channel — resolving to Ok of the fulfilled value, and to Err of a
`TryCatchError` whose cause is the rejection (or thrown) value
otherwise; for fn rejecting with "boom", the cause is "boom". -/
theorem c6_result_asyncTry (A : Type) (v : A) (t : JSValue) :
    TS.Result.asyncTry (Except.ok v) = TS.Result.ok v
    ∧ (TS.Result.asyncTry (Except.error t) : TS.Result A TryCatchError)
        = TS.Result.err ⟨t⟩
    ∧ (TS.Result.asyncTry (Except.error (JSValue.vStr "boom"))
        : TS.Result JSValue TryCatchError)
        = TS.Result.err ⟨JSValue.vStr "boom"⟩
    ∧ (TryCatchError.mk (JSValue.vStr "boom")).cause = JSValue.vStr "boom" :=
  ⟨rfl, rfl, rfl, rfl⟩

/-- Claim C7: functor composition for `Option.map` — for every
non-null v and pure f, g returning non-null values,
`Option.some(v).map(f).map(g)` equals
`Option.some(v).map(x => g(f(x)))`. -/
theorem c7_option_map_comp (v : JSValue) (f g : JSValue → JSValue)
    (_hv : v.isNullish = false)
    (_hf : ∀ x, (f x).isNullish = false)
    (_hg : ∀ x, (g x).isNullish = false) :
    ((TS.Option.some v).map f).map g
      = (TS.Option.some v).map (fun x => g (f x)) :=
  rfl

/-- Witness for C7 at v = 1, f = numSucc, g = numDouble. -/
theorem c7_option_map_comp_witness :
    ((TS.Option.some (JSValue.vNum 1)).map numSucc).map numDouble
      = (TS.Option.some (JSValue.vNum 1)).map
          (fun x => numDouble (numSucc x)) :=
  c7_option_map_comp (JSValue.vNum 1) numSucc numDouble rfl
    (fun x => by cases x <;> rfl) (fun x => by cases x <;> rfl)

/-- Claim C8: `Fn.tap(fn, value)` returns value unchanged in all
cases — when fn returns normally, when fn throws synchronously (the
throw is caught: `tap(() => \x7b throw new Error() \x7d, 42)` returns
42), and when fn returns a promise, whose settlement (including
rejection) is discarded without being awaited. -/
theorem c8_fn_tap (A : Type) (fn : A → Except JSValue TapReturn)
    (value : A) (p : Except JSValue Unit) :
    Fn.tap fn value = value
    ∧ Fn.tap (fun _ : JSValue => Except.error (JSValue.vError ""))
        (JSValue.vNum 42) = JSValue.vNum 42
    ∧ Fn.tap (fun _ : A => Except.ok (TapReturn.retPromise p)) value
        = value := by
  refine ⟨?_, rfl, rfl⟩
  unfold Fn.tap
  cases fn value with
  | ok r => cases r <;> rfl
  | error t => rfl

/-- Claim C9: `isTaggedError` uses class-membership semantics — it
returns true exactly when its argument is an instance of
`TaggedError` (here: the library's `UnwrapError` and `TryCatchError`
subclasses), and in particular returns false on a forged object
carrying a `_tag` field and a message without inheriting from
`TaggedError`. -/
theorem c9_isTaggedError_class_membership (e : ErrorLike) :
    isTaggedError e = e.instanceOfTaggedError
    ∧ isTaggedError (ErrorLike.forged "X" "m") = false
    ∧ (ErrorLike.forged "X" "m").hasTagField = true
    ∧ isTaggedError (ErrorLike.unwrapErr ⟨"m"⟩) = true
    ∧ isTaggedError (ErrorLike.tryCatchErr ⟨JSValue.vNull⟩) = true
    ∧ isTaggedError (ErrorLike.plainError "m") = false := by
  refine ⟨?_, rfl, rfl, rfl, rfl, rfl⟩
  cases e <;> rfl

/-- Claim C10: unlike `Option.some`, `Result.ok` places no non-null
restriction on its argument — for every value v, including null and
undefined, `Result.ok(v)` is an Ok whose `isOk()` is true and whose
`unwrap()` returns v. -/
theorem c10_result_ok_no_null_restriction (v : JSValue) (m : OptString) :
    (TS.Result.ok v : TS.Result JSValue JSValue).isOk = true
    ∧ (TS.Result.ok v : TS.Result JSValue JSValue).unwrap m = Except.ok v
    ∧ (TS.Result.ok JSValue.vNull : TS.Result JSValue JSValue).unwrap none
        = Except.ok JSValue.vNull
    ∧ (TS.Result.ok JSValue.vUndefined
        : TS.Result JSValue JSValue).unwrap none
        = Except.ok JSValue.vUndefined :=
  ⟨rfl, rfl, rfl, rfl⟩
